import Mathlib

/-!
Verification of the run-scheduling and build-cache engine of
src/cocotb/run_tvla.py against its specification.

The Python source is shallowly embedded: pure computations become Lean
functions, Python float attribute values are embedded as exact rationals
(only parsing, comparison, addition and division by constants occur),
filesystem and RNG interaction becomes explicit oracles threaded through
the definitions, and code that can raise returns Except / an Outcome value.
-/

namespace RunTvla

/-- Python str.upper on one ASCII character. -/
def charUpper (c : Char) : Char :=
  if 'a' ≤ c && c ≤ 'z' then Char.ofNat (c.toNat - 32) else c

/-- Model of the Python str.upper method (the tags are ASCII). -/
def pyUpper (s : String) : String := String.mk (s.data.map charUpper)

/-- True for the ASCII whitespace characters str.strip removes. -/
def isSpaceChar (c : Char) : Bool :=
  c == ' ' || c == '\t' || c == '\n' || c == '\r'

/-- Model of the Python str.strip method: drop whitespace from both ends. -/
def pyStrip (s : String) : String :=
  String.mk (((s.data.dropWhile isSpaceChar).reverse.dropWhile isSpaceChar).reverse)

/-- Model of the Python str.join method. -/
def pyJoin (sep : String) : List String → String
  | [] => ""
  | [x] => x
  | x :: y :: rest => x ++ sep ++ pyJoin sep (y :: rest)

/-- True when every character of the list is an ASCII decimal digit. -/
def isDigitList (l : List Char) : Bool := l.all (fun c => c.isDigit)

/-- Value of a list of decimal digit characters, most significant first. -/
def digitsVal (l : List Char) : Nat := l.foldl (fun a c => 10 * a + (c.toNat - 48)) 0

/-- Model of the Python builtin float(s) applied to a string: returns the
exact rational value of an optionally signed decimal numeral (with optional
fractional part), and none where Python float() raises ValueError.
Exponent and inf/nan spellings are not needed by any claim and are
conservatively rejected. -/
def pyFloat? (s : String) : Option ℚ :=
  let core : List Char → Option ℚ := fun r =>
    match r.span (fun c => c.isDigit) with
    | (ip, []) => if ip.isEmpty then none else some ((digitsVal ip : ℚ))
    | (ip, '.' :: fp) =>
        if isDigitList fp && !(ip.isEmpty && fp.isEmpty) then
          some ((digitsVal ip : ℚ) + (digitsVal fp : ℚ) / (10 : ℚ) ^ fp.length)
        else none
    | (_, _) => none
  match (pyStrip s).data with
  | '-' :: r => (core r).map (fun q => -q)
  | '+' :: r => core r
  | r => core r

/-- Model of the Python builtin int(s) applied to a string: an optionally
signed decimal numeral, none where Python int() raises ValueError. -/
def pyInt? (s : String) : Option ℤ :=
  let core : List Char → Option ℤ := fun r =>
    if r.isEmpty || !(isDigitList r) then none else some ((digitsVal r : ℤ))
  match (pyStrip s).data with
  | '-' :: r => (core r).map (fun z => -z)
  | '+' :: r => core r
  | r => core r

/-- One testcase element of the result document: its optional attributes
(as raw strings, exactly what Element.get returns) and the tag names of its
child elements, in document order. -/
structure XTestCase where
  name : Option String := none
  classname : Option String := none
  file : Option String := none
  lineno : Option String := none
  time : Option String := none
  sim_time_ns : Option String := none
  sim_time_ps : Option String := none
  children : List String := []
deriving DecidableEq, Repr

/-- One testsuite element: its optional random_seed attribute and its
testcase elements in document order. -/
structure XTestSuite where
  random_seed : Option String := none
  testcases : List XTestCase := []
deriving DecidableEq, Repr

/-- The TestCase dataclass of run_tvla.py. -/
structure TestCase where
  name : String
  classname : String
  file : String
  lineno : String
  time : ℚ
  sim_time_ns : ℚ
  ratio_time : ℚ
  status : String
deriving DecidableEq, Repr

/-- The TestSuite dataclass of run_tvla.py. -/
structure TestSuite where
  random_seed : ℤ
  test_cases : List TestCase
  errors : Nat
  failures : Nat
  total_sim_time_ns : ℚ
deriving DecidableEq, Repr

/-- Lines 57-71 of parse_results: the per-case simulated time. sim_time_ns
is consulted first; only when it is absent is sim_time_ps consulted and its
value divided by 1e3; a float() failure inside the try block degrades the
value to 0. -/
def caseSimTime (tc : XTestCase) : ℚ :=
  match tc.sim_time_ns with
  | some ns =>
      match pyFloat? ns with
      | some q => q
      | none => 0
  | none =>
      match tc.sim_time_ps with
      | some ps =>
          match pyFloat? ps with
          | some q => q / 1000
          | none => 0
      | none => 0

/-- Line 72 of parse_results: time_s = float(tc.get("time") or 0). The
attribute being absent or empty (falsy) yields 0; a present, non-empty,
malformed value makes float() raise ValueError, which no handler catches. -/
def parseCaseTime (tc : XTestCase) : Except String ℚ :=
  match tc.time with
  | none => .ok 0
  | some s =>
      if s = "" then .ok 0
      else
        match pyFloat? s with
        | some q => .ok q
        | none => .error "ValueError"

/-- Lines 73-84 of parse_results: the TestCase record built for one
testcase element, given the already parsed wall-clock time. The status is
the comma-join of the uppercased tags of ALL child elements, or the PASSED
sentinel when that join is empty (Python: ", ".join(failures) or "PASSED"). -/
def mkTestCase (tc : XTestCase) (time_s : ℚ) : TestCase :=
  let failures := tc.children.map pyUpper
  let joined := pyJoin ", " failures
  { name := tc.name.getD "???"
    classname := tc.classname.getD "???"
    file := tc.file.getD "???"
    lineno := tc.lineno.getD "???"
    time := time_s
    sim_time_ns := caseSimTime tc
    ratio_time := if time_s > 0 then caseSimTime tc / time_s else 0
    status := if joined = "" then "PASSED" else joined }

/-- The body of the per-testcase loop of parse_results (lines 56-89),
threading the accumulated case list, error/failure/skipped counters and
total simulated time exactly as the source does. A ValueError from the
unguarded float() on the time attribute aborts the whole loop. -/
def suiteFold :
    List XTestCase → List TestCase × Nat × Nat × Nat × ℚ →
      Except String (List TestCase × Nat × Nat × Nat × ℚ)
  | [], acc => .ok acc
  | tc :: rest, (cs, ne, nf, ns, tot) =>
      match parseCaseTime tc with
      | .error e => .error e
      | .ok time_s =>
          let failures := tc.children.map pyUpper
          suiteFold rest
            (cs ++ [mkTestCase tc time_s],
             ne + failures.countP (fun e => e == "ERROR"),
             nf + failures.countP (fun e => e == "FAILURE"),
             ns + failures.countP (fun e => e == "SKIPPED"),
             tot + caseSimTime tc)

/-- Line 92 of parse_results: int(random_seed or "-1"). The attribute being
absent or empty yields the -1 sentinel; a present, non-empty, malformed
value makes int() raise ValueError, which no handler catches. -/
def parseSeed : Option String → Except String ℤ
  | none => .ok (-1)
  | some s =>
      if s = "" then .ok (-1)
      else
        match pyInt? s with
        | some n => .ok n
        | none => .error "ValueError"

/-- Lines 49-98 of parse_results: the TestSuite record built for one
testsuite element. -/
def parseSuite (ts : XTestSuite) : Except String TestSuite :=
  match suiteFold ts.testcases ([], 0, 0, 0, 0) with
  | .error e => .error e
  | .ok (cs, ne, nf, _, tot) =>
      match parseSeed ts.random_seed with
      | .error e => .error e
      | .ok sd =>
          .ok { random_seed := sd, test_cases := cs, errors := ne,
                failures := nf, total_sim_time_ns := tot }

/-- parse_results (lines 46-99): one TestSuite per testsuite element, in
document order; any uncaught ValueError aborts the whole parse. -/
def parse_results (doc : List XTestSuite) : Except String (List TestSuite) :=
  match doc with
  | [] => .ok []
  | ts :: rest =>
      match parseSuite ts with
      | .error e => .error e
      | .ok r =>
          match parse_results rest with
          | .error e => .error e
          | .ok rs => .ok (r :: rs)

/-- Bool-valued test that pat occurs at position i of l. -/
def matchesAt : List Char → List Char → Bool
  | [], _ => true
  | _ :: _, [] => false
  | a :: as, b :: bs => a == b && matchesAt as bs

/-- Bool-valued substring containment, used to state the claims that speak
of a status string containing a marker. -/
def strContainsSub (s pat : String) : Bool :=
  (List.range (s.length + 1)).any (fun i => matchesAt pat.data (s.data.drop i))

/-- The time attribute of the element either is absent, is empty, or parses
as a float: exactly the cases in which line 72 does not raise. -/
def timeFieldOk (tc : XTestCase) : Bool :=
  match tc.time with
  | none => true
  | some s => s == "" || (pyFloat? s).isSome

/-- The random_seed attribute either is absent, is empty, or parses as an
int: exactly the cases in which line 92 does not raise. -/
def seedFieldOk (ts : XTestSuite) : Bool :=
  match ts.random_seed with
  | none => true
  | some s => s == "" || (pyInt? s).isSome

/-- The wall-clock time value line 72 produces when it does not raise. -/
def timeVal (tc : XTestCase) : ℚ :=
  match parseCaseTime tc with
  | .ok q => q
  | .error _ => 0

/-- The filesystem facts the build-staleness check of lines 366-383 reads:
whether the build directory exists, whether the expected simulation
executable build_dir/top exists, the modification times of every entry the
glob over the build tree returns, and the modification times of the source
files. Times are embedded as rationals since only comparison occurs. -/
structure BuildFS where
  buildDirExists : Bool
  simExeExists : Bool
  buildFiles : List ℚ
  srcMtimes : List ℚ
deriving DecidableEq, Repr

/-- Model of the Python builtin max over a list; the program only applies
it to non-empty lists (an assert guarantees sources is non-empty, and the
build-file branch is guarded by an emptiness check). -/
def pyMax : List ℚ → ℚ
  | [] => 0
  | x :: xs => xs.foldl max x

/-- Lines 366-383: the build-staleness decision. build is the value of
args.build on entry (the --build flag); the branches only ever set it to
true. -/
def checkBuild (fs : BuildFS) (build : Bool) : Bool :=
  if !fs.buildDirExists then true
  else if !fs.simExeExists then true
  else if fs.buildFiles.isEmpty then true
  else if pyMax fs.buildFiles < pyMax fs.srcMtimes then true
  else build

/-- Python str(n) for a natural number: its decimal digits, most
significant first. -/
def pyDecDigits (n : Nat) : List Nat :=
  if n = 0 then [0] else (Nat.digits 10 n).reverse

/-- Python format(n, "08x"): hexadecimal digits, most significant first,
left-padded with zeros to at least eight digits. -/
def pyHexDigits8 (n : Nat) : List Nat :=
  let ds := if n = 0 then [0] else (Nat.digits 16 n).reverse
  List.replicate (8 - ds.length) 0 ++ ds

/-- Line 468 of run_multi: the digit content of the run directory name,
the decimal run index followed by the eight-hex-digit seed. -/
def runIdDigits (id seed : Nat) : List Nat :=
  pyDecDigits id ++ pyHexDigits8 seed

/-- Left inverse of Nat.digitChar on digit values below 16. -/
def unDigitChar (c : Char) : Nat :=
  if c = '0' then 0 else if c = '1' then 1 else if c = '2' then 2
  else if c = '3' then 3 else if c = '4' then 4 else if c = '5' then 5
  else if c = '6' then 6 else if c = '7' then 7 else if c = '8' then 8
  else if c = '9' then 9 else if c = 'a' then 10 else if c = 'b' then 11
  else if c = 'c' then 12 else if c = 'd' then 13 else if c = 'e' then 14
  else if c = 'f' then 15 else 16

/-- The run directory name of line 468: the Python f-string
str(id) + format(seed, "08x"). -/
def runIdStr (id seed : Nat) : String :=
  String.mk ((runIdDigits id seed).map Nat.digitChar)

/-- The fixed per-run metadata file name of line 406. -/
def metaFilename : String := "meta.json.gz"

/-- Path concatenation as performed by pathlib Path division. -/
def pjoin (a b : String) : String := a ++ "/" ++ b

/-- The while loop of run_multi (lines 466-474): draw a seed, derive the
run directory name, and retry while the metadata file at the derived path
already exists. The RNG is embedded as the explicit stream of values that
random.randint(0, 2^31 - 1) would return; the source loop is unbounded, so
an exhausted stream (none) stands for non-termination. -/
def pickRunId (existsF : String → Bool) (dir : String) (id : Nat) :
    List Nat → Option (Nat × String)
  | [] => none
  | seed :: rest =>
      let run_id := runIdStr id seed
      let meta := pjoin (pjoin dir run_id) metaFilename
      if existsF meta then pickRunId existsF dir id rest
      else some (seed, run_id)

/-- The run identities a multi-run batch of size N produces: one pick per
run index from the RNG stream of that index (the per-index bodies of the
Parallel fan-out of lines 517-519). -/
def pickedIds (ex : String → Bool) (dir : String) (streams : Nat → List Nat)
    (N : Nat) : List (Nat × String) :=
  (List.range N).filterMap (fun i => pickRunId ex dir i (streams i))

/-- Line 523: Path.relative_to, dropping the base directory and the
separator from the front of the path. -/
def relTo (base p : String) : String := p.drop (base.length + 1)

/-- Lines 520-532: the manifest-assembly tail of a multi-run batch.
manifest holds the lines already in meta.list (the file is opened in
append mode, never truncated); results holds the per-run returns of
run_multi, none for a run that produced no metadata file. An empty
filtered list is exit(1) without touching the manifest, embedded as none. -/
def multiManifestStep (base : String) (manifest : List String)
    (results : List (Option String)) : Option (List String) :=
  let metaFiles := (results.filterMap id).map (relTo base)
  if metaFiles.isEmpty then none
  else some (manifest ++ metaFiles)

/-- The JSON values the design-manifest branch of lines 333-355 examines. -/
inductive PyJson where
  | jdict (entries : List (String × PyJson))
  | jstr (s : String)
  | jlist (elems : List PyJson)
  | jother

/-- Dictionary lookup on a PyJson value; none on non-dicts or absent keys. -/
def PyJson.get? : PyJson → String → Option PyJson
  | .jdict entries, k =>
      match entries.find? (fun e => e.1 == k) with
      | some e => some e.2
      | none => none
  | _, _ => none

/-- True exactly for string members, used for the sources list elements. -/
def PyJson.isStr : PyJson → Bool
  | .jstr _ => true
  | _ => false

/-- The string of a jstr member. -/
def PyJson.asStr : PyJson → Option String
  | .jstr s => some s
  | _ => none

/-- The outwardly observable events the claims reason about: an
invocation of build_simulation and an invocation of the execution service
(runner.test inside run_test). -/
inductive Ev where
  | buildSim
  | runTest
deriving DecidableEq, Repr

/-- How a run of the __main__ block ends: normal completion, sys.exit(1)
after a printed diagnostic, an uncaught Python exception of the named kind
(AssertionError, NameError, TypeError - also a non-zero process exit), or
the unbounded seed-retry loop never terminating. -/
inductive Outcome where
  | finished
  | exitOne (msg : String)
  | uncaught (kind : String)
  | diverged
deriving DecidableEq, Repr

/-- True for the outcomes in which the process terminates with a non-zero
exit status. -/
def nonZeroExit : Outcome → Bool
  | .exitOne _ => true
  | .uncaught _ => true
  | _ => false

/-- The parsed command line of the entry point (the fields the claims
depend on; argparse itself is out of scope). -/
structure MainArgs where
  top : Option String := none
  seed : Option Int := none
  test_module : String := "tb"
  test_cases : List String := []
  build : Bool := false
  multi : Option Int := none
  single_test : Bool := false
  multi_dir_suffix : String := "multi"
deriving Repr

/-- The ambient state the entry point reads: the file list, the filesystem
existence oracle, the build tree, the per-run-index RNG streams and the
oracle telling whether a run left its metadata file behind. -/
structure World where
  filelistExists : Bool
  filelistSuffix : String
  sourcesRoot : String := "."
  filelistLines : List String := []
  filelistJson : PyJson := .jother
  fileExists : String → Bool
  cwd : String := "cwd"
  buildDirExists : Bool
  simExeExists : Bool := false
  buildFiles : List ℚ := []
  srcMtime : String → ℚ := fun _ => 0
  buildSucceeds : Bool := true
  seedStream : Nat → List Nat := fun _ => []
  metaCreated : String → Bool := fun _ => false

/-- Lines 329-355: the suffix-dispatched loading of the source list from a
.f or .json file list, with the top-module fallback of the json branch.
The possibly never-assigned Python local sources is an Option: none means
the suffix matched neither branch and the local is unbound, so the
subsequent assert on it raises NameError. -/
def sourcesBranch (a : MainArgs) (w : World) :
    Except Outcome (Option (List String) × Option String) :=
  if w.filelistSuffix = ".f" then
        .ok (some (((w.filelistLines.map pyStrip).filter
              (fun s => s ≠ "")).map (pjoin w.sourcesRoot)), a.top)
      else if w.filelistSuffix = ".json" then
        match w.filelistJson with
        | .jdict entries =>
            let data :=
              match (PyJson.jdict entries).get? "rtl" with
              | some v => v
              | none => .jdict entries
            match data with
            | .jdict entries2 =>
                match (PyJson.jdict entries2).get? "sources" with
                | none => .error (.exitOne "expected a sources key")
                | some (.jlist srcs) =>
                    if srcs.all PyJson.isStr then
                      let ss := (srcs.filterMap PyJson.asStr).map
                        (pjoin w.sourcesRoot)
                      match a.top with
                      | some t =>
                          if t = "" then
                            match (PyJson.jdict entries2).get? "top" with
                            | some (.jstr t2) => .ok (some ss, some t2)
                            | some _ => .ok (some ss, none)
                            | none => .error (.exitOne "no top module")
                          else .ok (some ss, some t)
                      | none =>
                          match (PyJson.jdict entries2).get? "top" with
                          | some (.jstr t2) => .ok (some ss, some t2)
                          | some _ => .ok (some ss, none)
                          | none => .error (.exitOne "no top module")
                    else .error (.uncaught "TypeError")
                | some _ => .error (.uncaught "TypeError")
            | _ => .error (.uncaught "AssertionError")
        | _ => .error (.exitOne "expected a JSON object")
      else
        .ok (none, a.top)

/-- Lines 322-361: the file-list existence check, then the suffix branch,
then the assert on the possibly unbound sources local and the per-source
existence checks. -/
def loadSources (a : MainArgs) (w : World) :
    Except Outcome (List String × Option String) :=
  if !w.filelistExists then .error (.exitOne "file list does not exist")
  else
    match sourcesBranch a w with
    | .error o => .error o
    | .ok (none, _) => .error (.uncaught "NameError")
    | .ok (some [], _) => .error (.uncaught "AssertionError")
    | .ok (some srcs, topOpt) =>
        if srcs.all w.fileExists then .ok (srcs, topOpt)
        else .error (.exitOne "source file does not exist")

/-- Lines 533-547: the paired (random vs no-random) branch. The seed value
only names run directories, so only the dispatch count is observable: one
execution-service call per configuration, two unless --single-test. -/
def pairFlow (a : MainArgs) (evs : List Ev) : Outcome × List Ev :=
  let confs : List Bool := if a.single_test then [false] else [false, true]
  (.finished, evs ++ confs.map (fun _ => Ev.runTest))

/-- One dispatched run_multi task body after its seed assert: the seed
retry loop of lines 466-474 over the RNG stream of run index i. -/
def runMultiTask (w : World) (multiDir : String) (i : Nat) :
    Option (Nat × String) :=
  pickRunId w.fileExists multiDir i (w.seedStream i)

/-- The dispatched run_multi tasks in index order (lines 517-519), each
invoking the execution service and reporting its metadata file (lines
479-495), followed by the manifest tail emptiness check (lines 520-526). -/
def runTasksAux (w : World) (multiDir : String) :
    Nat → Nat → List Ev → List (Option String) → Outcome × List Ev
  | 0, _, evs, acc =>
      if (acc.reverse.filterMap id).isEmpty then
        (.exitOne "no meta files were created", evs)
      else (.finished, evs)
  | k + 1, i, evs, acc =>
      match runMultiTask w multiDir i with
      | none => (.diverged, evs)
      | some (_, run_id) =>
          let metaPath := pjoin (pjoin multiDir run_id) metaFilename
          let res := if w.metaCreated metaPath then some metaPath else none
          runTasksAux w multiDir k (i + 1) (evs ++ [Ev.runTest]) (res :: acc)

/-- Lines 500-532: the multi-run branch, entered when args.multi is truthy
(a non-zero integer). The positive-run-count and directory-suffix asserts
run before dispatch; the seed-is-None assert of run_multi (lines 461-463)
runs inside every dispatched task, before any execution-service call, so a
pinned seed raises AssertionError there with no runTest event. -/
def multiFlow (a : MainArgs) (w : World) (evs : List Ev) (top : String)
    (m : Int) : Outcome × List Ev :=
  if m ≤ 0 then (.uncaught "AssertionError", evs)
  else if a.multi_dir_suffix = "" then (.uncaught "AssertionError", evs)
  else
    let test_case := a.test_cases.headD ""
    let test_root := pjoin (pjoin w.cwd "tvla_run") top
    let multiDir := pjoin (pjoin test_root test_case) a.multi_dir_suffix
    match a.seed with
    | some _ => (.uncaught "AssertionError", evs)
    | none => runTasksAux w multiDir m.toNat 0 evs []

/-- The __main__ block (lines 318-547) as a function from the parsed
arguments and the ambient state to the terminating outcome and the ordered
build/execution events: source loading, top resolution (line 363 joins the
path with args.top and raises TypeError when it is None), the staleness
check, the conditional build (a compiler failure is caught and turned into
exit(1) inside build_simulation), the test-case cardinality assert of
lines 420-422, the test-module assert of line 425, and the mode dispatch. -/
def afterLoad (a : MainArgs) (w : World) (srcs : List String)
    (topOpt : Option String) : Outcome × List Ev :=
  match topOpt with
  | none => (.uncaught "TypeError", [])
  | some top =>
      let doBuild := checkBuild
        { buildDirExists := w.buildDirExists,
          simExeExists := w.simExeExists,
          buildFiles := w.buildFiles,
          srcMtimes := srcs.map w.srcMtime } a.build
      let evs : List Ev := if doBuild then [.buildSim] else []
      if doBuild && !w.buildSucceeds then
        (.exitOne "error building the design", evs)
      else if a.test_cases.length ≠ 1 then (.uncaught "AssertionError", evs)
      else if a.test_module = "" then (.uncaught "AssertionError", evs)
      else
        match a.multi with
        | some m => if m ≠ 0 then multiFlow a w evs top m else pairFlow a evs
        | none => pairFlow a evs

/-- The top-level composition of the __main__ block: source loading, then
everything from the top-module resolution onwards. -/
def mainFlow (a : MainArgs) (w : World) : Outcome × List Ev :=
  match loadSources a w with
  | .error o => (o, [])
  | .ok (srcs, topOpt) => afterLoad a w srcs topOpt

/-! Concrete inputs used by witnesses and counterexamples. -/

/-- A testcase element carrying both simulated-time attributes. -/
def tc10a : XTestCase := { sim_time_ns := some "5", sim_time_ps := some "7000" }

/-- A testcase element carrying only the picosecond attribute. -/
def tc10b : XTestCase := { sim_time_ps := some "7000" }

/-- A testcase element with no child elements. -/
def tc3w : XTestCase := {}

/-- A result document whose only case has a single non-failure-class child
element. -/
def ce3suite : XTestSuite := { testcases := [{ children := ["foo"] }] }

/-- A result document whose only case has two error child elements. -/
def ce4suite : XTestSuite := { testcases := [{ children := ["error", "error"] }] }

/-- A suite with one failing case, for the count-invariant witness. -/
def ts4w : XTestSuite := { testcases := [{ children := ["error"] }] }

/-- The TestSuite record parsing ts4w yields. -/
def r4w : TestSuite :=
  { random_seed := -1
    test_cases := [{ name := "???", classname := "???", file := "???",
                     lineno := "???", time := 0, sim_time_ns := 0,
                     ratio_time := 0, status := "ERROR" }]
    errors := 1
    failures := 0
    total_sim_time_ns := 0 + 0 }

/-- A result document whose only case has a malformed time attribute. -/
def ce5suite : XTestSuite := { testcases := [{ time := some "abc" }] }

/-- A suite whose only malformed numeric fields are the simulated-time
attributes. -/
def ts5w : XTestSuite :=
  { random_seed := some "42"
    testcases := [{ time := some "2.0", sim_time_ns := some "bad" },
                  { sim_time_ps := some "also-bad" }] }

/-- A fresh-artifact filesystem state with one source older than the one
artifact entry, negated below to one with a newer source. -/
def fs7 : BuildFS :=
  { buildDirExists := true, simExeExists := true, buildFiles := [1], srcMtimes := [2] }

/-- An invocation naming two test cases. -/
def a1 : MainArgs :=
  { top := some "top", test_module := "tb", test_cases := ["case_a", "case_b"] }

/-- An ambient state with a valid one-line .f file list and no build
directory, so a build is forced. -/
def w1 : World :=
  { filelistExists := true, filelistSuffix := ".f", filelistLines := ["x.v"],
    fileExists := fun _ => true, buildDirExists := false }

/-- An invocation pinning a seed while requesting two runs. -/
def a6 : MainArgs :=
  { top := some "top", test_module := "tb", test_cases := ["t"],
    seed := some 5, multi := some 2 }

/-- An ambient state forcing a build, for the pinned-seed counterexample. -/
def w6 : World :=
  { filelistExists := true, filelistSuffix := ".f", filelistLines := ["y.v"],
    fileExists := fun _ => true, buildDirExists := false }

/-- An invocation whose file list has an unknown extension. -/
def a9 : MainArgs := { top := some "top", test_module := "tb", test_cases := ["t"] }

/-- An ambient state whose file list exists with extension .txt. -/
def w9 : World :=
  { filelistExists := true, filelistSuffix := ".txt",
    fileExists := fun _ => true, buildDirExists := true }

/-- A metadata-existence oracle with no pre-existing metadata files. -/
def ex2 : String → Bool := fun _ => false

/-- RNG streams whose every index yields the seed 3 first. -/
def streams2 : Nat → List Nat := fun _ => [3]

/-! Claim theorems. -/

/-- C7: the staleness decision (lines 366-383, entered with the --build
flag unset) forces a rebuild exactly when the artifact directory does not
exist, or the expected simulation binary is missing, or the artifact tree
has no entries, or the newest source mtime exceeds the newest
artifact-tree mtime; in every other case the existing artifact is reused. -/
theorem stale_rebuild_iff : ∀ fs : BuildFS, fs.srcMtimes ≠ [] →
    (checkBuild fs false = true ↔
      (fs.buildDirExists = false ∨ fs.simExeExists = false ∨
       fs.buildFiles = [] ∨ pyMax fs.buildFiles < pyMax fs.srcMtimes)) := by
  intro fs _h
  obtain ⟨bd, se, bf, sm⟩ := fs
  simp only [checkBuild]
  cases bd <;> cases se <;>
    simp only [Bool.not_true, Bool.not_false, if_true, if_false] <;>
    simp [List.isEmpty_iff] <;> split_ifs <;> simp_all

/-- Witness for stale_rebuild_iff at a concrete filesystem state. -/
theorem stale_rebuild_iff_witness :
    checkBuild fs7 false = true ↔
      (fs7.buildDirExists = false ∨ fs7.simExeExists = false ∨
       fs7.buildFiles = [] ∨ pyMax fs7.buildFiles < pyMax fs7.srcMtimes) :=
  stale_rebuild_iff fs7 (by decide)

/-- C10: when a testcase element carries sim_time_ns, that attribute alone
determines the simulated time (sim_time_ps is ignored); sim_time_ps is
consulted, its value divided by 1000, only when sim_time_ns is absent; and
both absent yields 0. -/
theorem sim_time_ns_precedence :
    (∀ tc ns, tc.sim_time_ns = some ns →
      caseSimTime tc = (pyFloat? ns).getD 0) ∧
    (∀ tc ps q, tc.sim_time_ns = none → tc.sim_time_ps = some ps →
      pyFloat? ps = some q → caseSimTime tc = q / 1000) ∧
    (∀ tc, tc.sim_time_ns = none → tc.sim_time_ps = none →
      caseSimTime tc = 0) := by
  refine ⟨?_, ?_, ?_⟩
  · intro tc ns h
    simp only [caseSimTime, h]
    cases hf : pyFloat? ns <;> simp [hf]
  · intro tc ps q h1 h2 h3
    simp [caseSimTime, h1, h2, h3]
  · intro tc h1 h2
    simp [caseSimTime, h1, h2]

/-- Witness for sim_time_ns_precedence: with both attributes present the
nanosecond value 5 wins; with only sim_time_ps = 7000 the time is 7. -/
theorem sim_time_ns_precedence_witness :
    caseSimTime tc10a = (pyFloat? "5").getD 0 ∧ caseSimTime tc10b = 7 := by
  refine ⟨sim_time_ns_precedence.1 tc10a "5" rfl, ?_⟩
  have h := sim_time_ns_precedence.2.1 tc10b "7000" 7000 rfl rfl (by decide)
  rw [h]
  norm_num

/-- C3 (amended): a parsed test case whose element has no child elements
at all gets the PASSED sentinel status; a child element of any tag is not
ignored but joins the status. -/
theorem status_passed_of_no_children :
    ∀ tc t, tc.children = [] → (mkTestCase tc t).status = "PASSED" := by
  intro tc t h
  simp [mkTestCase, h, pyJoin]

/-- Witness for status_passed_of_no_children at a childless element. -/
theorem status_passed_of_no_children_witness :
    (mkTestCase tc3w 1).status = "PASSED" :=
  status_passed_of_no_children tc3w 1 rfl

/-- Counterexample to C3 as stated: the document ce3suite has no
error/failure/skipped child anywhere, yet its case status is not the
PASSED sentinel (the foo child is uppercased into the status). -/
theorem status_other_tag_not_ignored :
    (ce3suite.testcases.all fun tc => tc.children.all
      fun t => !(t == "error" || t == "failure" || t == "skipped")) = true
    ∧ ¬ (∀ r ∈ (parse_results [ce3suite]).toOption.getD [],
          ∀ c ∈ r.test_cases, c.status = "PASSED") := by
  constructor
  · decide
  · decide

/-- The error/failure counters a successful run of the per-case loop
accumulates are the initial values plus the per-case sums of matching
child tags. -/
theorem suiteFold_counts : ∀ (l : List XTestCase) cs ne nf ns tot out,
    suiteFold l (cs, ne, nf, ns, tot) = .ok out →
    out.2.1 = ne + (l.map (fun tc =>
      (tc.children.map pyUpper).countP (fun e => e == "ERROR"))).sum ∧
    out.2.2.1 = nf + (l.map (fun tc =>
      (tc.children.map pyUpper).countP (fun e => e == "FAILURE"))).sum := by
  intro l
  induction l with
  | nil =>
      intro cs ne nf ns tot out h
      simp only [suiteFold, Except.ok.injEq] at h
      subst h
      simp
  | cons tc rest ih =>
      intro cs ne nf ns tot out h
      rw [suiteFold] at h
      split at h
      · exact absurd h (by simp)
      · obtain ⟨h1, h2⟩ := ih _ _ _ _ _ _ h
        simp only [List.map_cons, List.sum_cons, h1, h2]
        omega

/-- C4 (amended): in every parsed TestSuite, errors equals the total
number of child elements whose uppercased tag is ERROR summed over all
cases with multiplicity, and failures likewise for FAILURE (a case with
two error children contributes two, and matching is by whole-tag
equality, not substring containment of the status). -/
theorem suite_counts_sum : ∀ ts r, parseSuite ts = .ok r →
    r.errors = (ts.testcases.map (fun tc =>
      (tc.children.map pyUpper).countP (fun e => e == "ERROR"))).sum ∧
    r.failures = (ts.testcases.map (fun tc =>
      (tc.children.map pyUpper).countP (fun e => e == "FAILURE"))).sum := by
  intro ts r h
  cases hsf : suiteFold ts.testcases ([], 0, 0, 0, 0) with
  | error e =>
      rw [parseSuite, hsf] at h
      exact absurd h (by simp)
  | ok acc =>
      obtain ⟨cs, ne, nf, ns, tot⟩ := acc
      rw [parseSuite, hsf] at h
      cases hps : parseSeed ts.random_seed <;> rw [hps] at h
      · exact absurd h (by simp)
      · simp only [Except.ok.injEq] at h
        obtain ⟨h1, h2⟩ := suiteFold_counts _ _ _ _ _ _ _ hsf
        subst h
        simp only at h1 h2
        constructor
        · simpa using h1
        · simpa using h2

/-- Witness for suite_counts_sum: parsing ts4w yields one error and no
failure, matching the child-tag sums. -/
theorem suite_counts_sum_witness :
    r4w.errors = (ts4w.testcases.map (fun tc =>
      (tc.children.map pyUpper).countP (fun e => e == "ERROR"))).sum ∧
    r4w.failures = (ts4w.testcases.map (fun tc =>
      (tc.children.map pyUpper).countP (fun e => e == "FAILURE"))).sum :=
  suite_counts_sum ts4w r4w (by rfl)

/-- Counterexample to C4 as stated: in the parse of ce4suite (one case with
two error children) the errors field is 2, but only one case has a status
containing ERROR, so the counts differ. -/
theorem errors_not_case_count :
    ¬ (∀ r ∈ (parse_results [ce4suite]).toOption.getD [],
        r.errors = r.test_cases.countP
          (fun c => strContainsSub c.status "ERROR")) := by decide

/-- A time attribute that satisfies timeFieldOk parses to its timeVal
without raising. -/
theorem parseCaseTime_ok_of_timeOk :
    ∀ tc, timeFieldOk tc = true → parseCaseTime tc = .ok (timeVal tc) := by
  intro tc h
  cases htc : tc.time with
  | none => simp [parseCaseTime, timeVal, htc]
  | some s =>
      rw [timeFieldOk, htc] at h
      simp only [parseCaseTime, timeVal, htc]
      by_cases hs : s = ""
      · simp [hs]
      · simp only [if_neg hs]
        rw [Bool.or_eq_true] at h
        cases h with
        | inl h => exact absurd (by simpa using h) hs
        | inr h =>
            obtain ⟨q, hq⟩ := Option.isSome_iff_exists.mp h
            simp [hq]

/-- When every time attribute is well formed the per-case loop succeeds
with the explicit closed form, whatever the sim_time fields hold. -/
theorem suiteFold_ok_of_timeOk : ∀ (l : List XTestCase) cs ne nf ns tot,
    (∀ tc ∈ l, timeFieldOk tc = true) →
    suiteFold l (cs, ne, nf, ns, tot) =
      .ok (cs ++ l.map (fun tc => mkTestCase tc (timeVal tc)),
           ne + (l.map (fun tc =>
             (tc.children.map pyUpper).countP (fun e => e == "ERROR"))).sum,
           nf + (l.map (fun tc =>
             (tc.children.map pyUpper).countP (fun e => e == "FAILURE"))).sum,
           ns + (l.map (fun tc =>
             (tc.children.map pyUpper).countP (fun e => e == "SKIPPED"))).sum,
           tot + (l.map caseSimTime).sum) := by
  intro l
  induction l with
  | nil =>
      intro cs ne nf ns tot _
      simp [suiteFold]
  | cons tc rest ih =>
      intro cs ne nf ns tot h
      rw [suiteFold, parseCaseTime_ok_of_timeOk tc (h tc (by simp))]
      simp only
      rw [ih _ _ _ _ _ (fun x hx => h x (by simp [hx]))]
      simp only [List.map_cons, List.sum_cons, List.append_assoc,
        List.singleton_append, Except.ok.injEq, Prod.mk.injEq, true_and,
        and_true]
      refine ⟨by omega, by omega, by omega, by ring⟩

/-- C5 (amended): a malformed sim_time_ns or sim_time_ps attribute
degrades that field alone to 0 and never aborts the parse - a suite whose
time and seed attributes are well formed parses successfully whatever its
sim_time fields hold, and each parsed simulated time is the degraded
caseSimTime value, which is 0 whenever the present attribute fails to
parse. The time and seed attributes themselves do not enjoy this: their
conversions are unguarded (see the counterexample). -/
theorem sim_time_degrades_locally : ∀ ts : XTestSuite,
    (∀ tc ∈ ts.testcases, timeFieldOk tc = true) →
    seedFieldOk ts = true →
    (parseSuite ts).toOption.isSome = true ∧
    (∀ r, parseSuite ts = .ok r →
      r.test_cases.map TestCase.sim_time_ns = ts.testcases.map caseSimTime) ∧
    (∀ tc s, tc.sim_time_ns = some s → pyFloat? s = none →
      caseSimTime tc = 0) := by
  intro ts ht hs
  have hseed : ∃ z, parseSeed ts.random_seed = .ok z := by
    cases hrs : ts.random_seed with
    | none => exact ⟨-1, by simp [parseSeed]⟩
    | some s =>
        rw [seedFieldOk, hrs] at hs
        by_cases hse : s = ""
        · exact ⟨-1, by simp [parseSeed, hse]⟩
        · rw [Bool.or_eq_true] at hs
          cases hs with
          | inl hs => exact absurd (by simpa using hs) hse
          | inr hs =>
              obtain ⟨z, hz⟩ := Option.isSome_iff_exists.mp hs
              exact ⟨z, by simp [parseSeed, if_neg hse, hz]⟩
  obtain ⟨z, hz⟩ := hseed
  have hfold := suiteFold_ok_of_timeOk ts.testcases [] 0 0 0 0 ht
  refine ⟨?_, ?_, ?_⟩
  · rw [parseSuite, hfold, hz]
    simp [Except.toOption]
  · intro r hr
    rw [parseSuite, hfold, hz] at hr
    simp only [Except.ok.injEq] at hr
    subst hr
    simp [mkTestCase, Function.comp]
  · intro tc s h1 h2
    simp [caseSimTime, h1, h2]

/-- Witness for sim_time_degrades_locally: ts5w has two malformed
sim_time attributes yet parses, each degraded to 0. -/
theorem sim_time_degrades_locally_witness :
    (parseSuite ts5w).toOption.isSome = true ∧
    (∀ r, parseSuite ts5w = .ok r →
      r.test_cases.map TestCase.sim_time_ns = ts5w.testcases.map caseSimTime) ∧
    (∀ tc s, tc.sim_time_ns = some s → pyFloat? s = none →
      caseSimTime tc = 0) :=
  sim_time_degrades_locally ts5w (by decide) (by decide)

/-- Counterexample to C5 as stated: a single malformed case-level time
attribute makes the unguarded float() raise ValueError, aborting
parse_results entirely instead of degrading the field to 0. -/
theorem malformed_time_aborts_parse :
    parse_results [ce5suite] = .error "ValueError" := by rfl

/-- A list of options in which every entry is some keeps its length under
filterMap id. -/
theorem filterMap_id_length : ∀ (l : List (Option String)),
    (∀ x ∈ l, x.isSome = true) → (l.filterMap id).length = l.length := by
  intro l
  induction l with
  | nil => intro _; simp
  | cons a as ih =>
      intro h
      cases a with
      | none => exact absurd (h none (by simp)) (by simp)
      | some v =>
          simp only [List.filterMap_cons, id, List.length_cons]
          rw [ih (fun x hx => h x (by simp [hx]))]

/-- C8: manifest append is monotonic. Starting from an empty meta.list,
appending the batch-A entries and then the batch-B entries (every run
having produced its metadata file) yields first a manifest of exactly A
lines and then one of exactly A + B lines whose first A lines are the
original batch-A manifest unchanged and in order. -/
theorem manifest_append_monotonic :
    ∀ (base : String) (ra rb : List (Option String)),
    ra ≠ [] → rb ≠ [] →
    (∀ x ∈ ra, x.isSome = true) → (∀ x ∈ rb, x.isSome = true) →
    ∃ mA mAB,
      multiManifestStep base [] ra = some mA ∧
      multiManifestStep base mA rb = some mAB ∧
      mA.length = ra.length ∧
      mAB.length = ra.length + rb.length ∧
      mAB.take ra.length = mA := by
  intro base ra rb hra hrb ha hb
  have hla : ((ra.filterMap id).map (relTo base)).length = ra.length := by
    rw [List.length_map, filterMap_id_length ra ha]
  have hlb : ((rb.filterMap id).map (relTo base)).length = rb.length := by
    rw [List.length_map, filterMap_id_length rb hb]
  have hane : ((ra.filterMap id).map (relTo base)).isEmpty = false := by
    rw [← Bool.not_eq_true, List.isEmpty_iff]
    intro h0
    apply hra
    have := congrArg List.length h0
    rw [hla] at this
    exact List.length_eq_zero.mp this
  have hbne : ((rb.filterMap id).map (relTo base)).isEmpty = false := by
    rw [← Bool.not_eq_true, List.isEmpty_iff]
    intro h0
    apply hrb
    have := congrArg List.length h0
    rw [hlb] at this
    exact List.length_eq_zero.mp this
  refine ⟨(ra.filterMap id).map (relTo base),
    (ra.filterMap id).map (relTo base) ++ (rb.filterMap id).map (relTo base),
    ?_, ?_, hla, ?_, ?_⟩
  · simp [multiManifestStep, hane]
  · simp [multiManifestStep, hbne]
  · rw [List.length_append, hla, hlb]
  · rw [← hla]
    exact List.take_left _ _

/-- Witness for manifest_append_monotonic: one-run batches against base
directory b. -/
theorem manifest_append_monotonic_witness :
    ∃ mA mAB,
      multiManifestStep "b" [] [some "b/x/m"] = some mA ∧
      multiManifestStep "b" mA [some "b/y/m"] = some mAB ∧
      mA.length = [some "b/x/m"].length ∧
      mAB.length = [some "b/x/m"].length + [some "b/y/m"].length ∧
      mAB.take [some "b/x/m"].length = mA :=
  manifest_append_monotonic "b" [some "b/x/m"] [some "b/y/m"]
    (by decide) (by decide) (by decide) (by decide)

/-- C9: a file list that exists with an extension that is neither .f nor
.json makes the entry point take neither assignment branch, so the
non-emptiness assert reads an unbound local and the run dies with an
uncaught NameError - not with a printed diagnostic and exit(1) - before
any build or run event. -/
theorem unknown_suffix_raises_name_error :
    ∀ a w, w.filelistExists = true →
    w.filelistSuffix ≠ ".f" → w.filelistSuffix ≠ ".json" →
    mainFlow a w = (.uncaught "NameError", []) := by
  intro a w h1 h2 h3
  have hsb : sourcesBranch a w = .ok (none, a.top) := by
    rw [sourcesBranch]
    simp [h2, h3]
  have hls : loadSources a w = .error (.uncaught "NameError") := by
    rw [loadSources, hsb]
    simp [h1]
  rw [mainFlow, hls]

/-- Witness for unknown_suffix_raises_name_error at a .txt file list. -/
theorem unknown_suffix_raises_name_error_witness :
    mainFlow a9 w9 = (.uncaught "NameError", []) :=
  unknown_suffix_raises_name_error a9 w9 rfl (by decide) (by decide)

/-- mainFlow reduces to the pair (o, no events) when source loading fails
with outcome o. -/
theorem mainFlow_of_loadSources_error : ∀ a w o,
    loadSources a w = .error o → mainFlow a w = (o, []) := by
  intro a w o h
  rw [mainFlow, h]

/-- mainFlow reduces to afterLoad when source loading succeeds. -/
theorem mainFlow_of_loadSources_ok : ∀ a w srcs topOpt,
    loadSources a w = .ok (srcs, topOpt) →
    mainFlow a w = afterLoad a w srcs topOpt := by
  intro a w srcs topOpt h
  rw [mainFlow, h]

/-- Every error the suffix branch produces is a non-zero process exit. -/
theorem sourcesBranch_error_nonzero : ∀ a w o,
    sourcesBranch a w = .error o → nonZeroExit o = true := by
  intro a w o h
  rw [sourcesBranch] at h
  repeat' first
  | (dsimp only [] at h)
  | split at h
  all_goals try simp only [Except.error.injEq] at h
  all_goals (try subst h)
  all_goals simp_all [nonZeroExit]

/-- Every error source loading produces is a non-zero process exit. -/
theorem loadSources_error_nonzero : ∀ a w o,
    loadSources a w = .error o → nonZeroExit o = true := by
  intro a w o h
  rw [loadSources] at h
  split at h
  · simp only [Except.error.injEq] at h
    subst h
    rfl
  · cases hsb : sourcesBranch a w with
    | error o2 =>
        rw [hsb] at h
        simp only [Except.error.injEq] at h
        subst h
        exact sourcesBranch_error_nonzero a w o2 hsb
    | ok pr =>
        rw [hsb] at h
        obtain ⟨so, topOpt⟩ := pr
        match so with
        | none =>
            simp only [Except.error.injEq] at h
            subst h
            rfl
        | some [] =>
            simp only [Except.error.injEq] at h
            subst h
            rfl
        | some (s :: rest) =>
            simp only at h
            split at h
            · exact absurd h (by simp)
            · simp only [Except.error.injEq] at h
              subst h
              rfl

/-- With a test-case count other than one, everything after source loading
ends in a non-zero exit with no execution-service call: the only possible
event is the build. -/
theorem afterLoad_card : ∀ a w srcs topOpt, a.test_cases.length ≠ 1 →
    nonZeroExit (afterLoad a w srcs topOpt).1 = true ∧
    Ev.runTest ∉ (afterLoad a w srcs topOpt).2 := by
  intro a w srcs topOpt h
  cases topOpt with
  | none => exact ⟨rfl, by simp [afterLoad]⟩
  | some top =>
      rw [afterLoad]
      cases hdb : checkBuild
          { buildDirExists := w.buildDirExists,
            simExeExists := w.simExeExists,
            buildFiles := w.buildFiles,
            srcMtimes := srcs.map w.srcMtime } a.build <;>
        cases hbs : w.buildSucceeds <;>
        simp [hdb, hbs, h, nonZeroExit]

/-- C1 (amended): naming two or more test cases always terminates the
process with a non-zero status and no test execution is ever dispatched;
the cardinality assert runs after the build step, however, so
build_simulation may already have been invoked (see the counterexample). -/
theorem two_test_cases_nonzero_no_run :
    ∀ a w, 2 ≤ a.test_cases.length →
    nonZeroExit (mainFlow a w).1 = true ∧ Ev.runTest ∉ (mainFlow a w).2 := by
  intro a w h
  cases hls : loadSources a w with
  | error o =>
      rw [mainFlow_of_loadSources_error a w o hls]
      exact ⟨loadSources_error_nonzero a w o hls, by simp⟩
  | ok pr =>
      obtain ⟨srcs, topOpt⟩ := pr
      rw [mainFlow_of_loadSources_ok a w srcs topOpt hls]
      exact afterLoad_card a w srcs topOpt (by omega)

/-- Witness for two_test_cases_nonzero_no_run at the concrete invocation
a1 / w1. -/
theorem two_test_cases_nonzero_no_run_witness :
    nonZeroExit (mainFlow a1 w1).1 = true ∧ Ev.runTest ∉ (mainFlow a1 w1).2 :=
  two_test_cases_nonzero_no_run a1 w1 (by decide)

/-- Counterexample to C1 as stated: invoking the scheduler through a1 / w1
names two test cases, yet build_simulation is invoked (the buildSim event
occurs) before the cardinality assert stops the process, so the exit does
not happen before any build occurs. -/
theorem build_precedes_cardinality_check :
    2 ≤ a1.test_cases.length ∧
    nonZeroExit (mainFlow a1 w1).1 = true ∧
    Ev.buildSim ∈ (mainFlow a1 w1).2 := by decide

/-- With a pinned seed and a truthy multi count, everything after source
loading ends in a non-zero exit with no execution-service call: every
dispatched run task fails its seed assert first. -/
theorem afterLoad_pinned_multi : ∀ a w srcs topOpt s m,
    a.seed = some s → a.multi = some m → 1 ≤ m →
    nonZeroExit (afterLoad a w srcs topOpt).1 = true ∧
    Ev.runTest ∉ (afterLoad a w srcs topOpt).2 := by
  intro a w srcs topOpt s m hs hm h1
  cases topOpt with
  | none => exact ⟨rfl, by simp [afterLoad]⟩
  | some top =>
      rw [afterLoad]
      have hm0 : m ≠ 0 := by omega
      have hml : ¬ m ≤ 0 := by omega
      cases hdb : checkBuild
          { buildDirExists := w.buildDirExists,
            simExeExists := w.simExeExists,
            buildFiles := w.buildFiles,
            srcMtimes := srcs.map w.srcMtime } a.build <;>
        cases hbs : w.buildSucceeds <;>
        by_cases hc : a.test_cases.length = 1 <;>
        by_cases htm : a.test_module = "" <;>
        by_cases hsuf : a.multi_dir_suffix = "" <;>
        simp [hdb, hbs, hc, htm, hsuf, hm, hm0, hml, multiFlow, hs,
          nonZeroExit]

/-- C6 (amended): a pinned seed together with a requested multi-run count
of at least one always terminates the process with a non-zero status and
no test execution is ever invoked; the seed assert lives inside the
dispatched run tasks, however, and runs only after the build step, so
build_simulation may already have been invoked and the run tasks are
dispatched (see the counterexample). -/
theorem pinned_seed_multi_nonzero_no_run :
    ∀ a w s m, a.seed = some s → a.multi = some m → 1 ≤ m →
    nonZeroExit (mainFlow a w).1 = true ∧ Ev.runTest ∉ (mainFlow a w).2 := by
  intro a w s m hs hm h1
  cases hls : loadSources a w with
  | error o =>
      rw [mainFlow_of_loadSources_error a w o hls]
      exact ⟨loadSources_error_nonzero a w o hls, by simp⟩
  | ok pr =>
      obtain ⟨srcs, topOpt⟩ := pr
      rw [mainFlow_of_loadSources_ok a w srcs topOpt hls]
      exact afterLoad_pinned_multi a w srcs topOpt s m hs hm h1

/-- Witness for pinned_seed_multi_nonzero_no_run at the concrete
invocation a6 / w6. -/
theorem pinned_seed_multi_nonzero_no_run_witness :
    nonZeroExit (mainFlow a6 w6).1 = true ∧ Ev.runTest ∉ (mainFlow a6 w6).2 :=
  pinned_seed_multi_nonzero_no_run a6 w6 5 2 rfl rfl (by decide)

/-- Counterexample to C6 as stated: the invocation a6 / w6 pins a seed and
requests two runs, yet build_simulation is invoked (the buildSim event
occurs) before the seed assert inside the dispatched tasks stops the
process, so the error is not detected before any build attempt. -/
theorem build_precedes_pinned_seed_check :
    a6.seed = some 5 ∧ a6.multi = some 2 ∧
    nonZeroExit (mainFlow a6 w6).1 = true ∧
    Ev.buildSim ∈ (mainFlow a6 w6).2 := by decide

/-- A run of zero digits contributes nothing to a positional value. -/
theorem ofDigits_replicate_zero : ∀ k, Nat.ofDigits 16 (List.replicate k 0) = 0 := by
  intro k
  induction k with
  | zero => simp
  | succ n ih => rw [List.replicate_succ, Nat.ofDigits_cons, ih]

/-- The decimal rendering of a natural number decodes back to it. -/
theorem pyDecDigits_decode : ∀ n, Nat.ofDigits 10 (pyDecDigits n).reverse = n := by
  intro n
  rw [pyDecDigits]
  by_cases h : n = 0
  · subst h
    decide
  · rw [if_neg h, List.reverse_reverse, Nat.ofDigits_digits]

/-- Two naturals with the same decimal rendering are equal. -/
theorem pyDecDigits_inj : ∀ m n, pyDecDigits m = pyDecDigits n → m = n := by
  intro m n h
  have hm := pyDecDigits_decode m
  rw [h, pyDecDigits_decode] at hm
  exact hm.symm

/-- The zero-padded hexadecimal rendering decodes back to its number. -/
theorem pyHexDigits8_decode : ∀ n, Nat.ofDigits 16 (pyHexDigits8 n).reverse = n := by
  intro n
  by_cases h : n = 0
  · subst h
    decide
  · simp only [pyHexDigits8, if_neg h]
    rw [List.reverse_append, List.reverse_replicate, List.reverse_reverse,
      Nat.ofDigits_append, Nat.ofDigits_digits, ofDigits_replicate_zero]
    simp

/-- Two naturals with the same padded hexadecimal rendering are equal. -/
theorem pyHexDigits8_inj : ∀ m n, pyHexDigits8 m = pyHexDigits8 n → m = n := by
  intro m n h
  have hm := pyHexDigits8_decode m
  rw [h, pyHexDigits8_decode] at hm
  exact hm.symm

/-- Seeds in the randint range render to exactly eight hex digits. -/
theorem pyHexDigits8_length : ∀ n, n < 2 ^ 31 → (pyHexDigits8 n).length = 8 := by
  intro n h
  by_cases h0 : n = 0
  · subst h0
    decide
  · simp only [pyHexDigits8, if_neg h0, List.length_append,
      List.length_replicate, List.length_reverse]
    have hlen : (Nat.digits 16 n).length ≤ 8 := by
      rw [Nat.digits_len 16 n (by norm_num) h0]
      have hlog : Nat.log 16 n < 8 :=
        Nat.log_lt_of_lt_pow h0 (lt_of_lt_of_le h (by norm_num))
      omega
    omega

/-- The concatenated digit rendering of index and seed is injective on the
randint seed range: the hex part has fixed length eight, so the split is
unique. -/
theorem runIdDigits_inj : ∀ i1 s1 i2 s2, s1 < 2 ^ 31 → s2 < 2 ^ 31 →
    runIdDigits i1 s1 = runIdDigits i2 s2 → i1 = i2 ∧ s1 = s2 := by
  intro i1 s1 i2 s2 h1 h2 h
  rw [runIdDigits, runIdDigits] at h
  have hl : (pyHexDigits8 s1).length = (pyHexDigits8 s2).length := by
    rw [pyHexDigits8_length s1 h1, pyHexDigits8_length s2 h2]
  obtain ⟨hdec, hhex⟩ := List.append_inj' h hl
  exact ⟨pyDecDigits_inj _ _ hdec, pyHexDigits8_inj _ _ hhex⟩

/-- Every decimal digit is below 16. -/
theorem pyDecDigits_lt : ∀ n d, d ∈ pyDecDigits n → d < 16 := by
  intro n d hd
  rw [pyDecDigits] at hd
  by_cases h : n = 0
  · rw [if_pos h, List.mem_singleton] at hd
    omega
  · rw [if_neg h, List.mem_reverse] at hd
    have := Nat.digits_lt_base (by norm_num) hd
    omega

/-- Every padded hexadecimal digit is below 16. -/
theorem pyHexDigits8_lt : ∀ n d, d ∈ pyHexDigits8 n → d < 16 := by
  intro n d hd
  simp only [pyHexDigits8] at hd
  rcases List.mem_append.mp hd with h1 | h2
  · have := List.eq_of_mem_replicate h1
    omega
  · by_cases h : n = 0
    · rw [if_pos h, List.mem_singleton] at h2
      omega
    · rw [if_neg h, List.mem_reverse] at h2
      exact Nat.digits_lt_base (by norm_num) h2

/-- Every digit of a run directory rendering is below 16. -/
theorem runIdDigits_lt : ∀ i s d, d ∈ runIdDigits i s → d < 16 := by
  intro i s d hd
  rw [runIdDigits] at hd
  rcases List.mem_append.mp hd with h | h
  exacts [pyDecDigits_lt i d h, pyHexDigits8_lt s d h]

/-- unDigitChar undoes Nat.digitChar on digit values below 16. -/
theorem unDigitChar_digitChar : ∀ d, d < 16 →
    unDigitChar (Nat.digitChar d) = d := by decide

/-- Mapping digit values below 16 to characters is injective. -/
theorem map_digitChar_inj : ∀ l1 l2 : List Nat,
    (∀ d ∈ l1, d < 16) → (∀ d ∈ l2, d < 16) →
    l1.map Nat.digitChar = l2.map Nat.digitChar → l1 = l2 := by
  intro l1
  induction l1 with
  | nil =>
      intro l2 _ _ h
      cases l2 with
      | nil => rfl
      | cons b bs => exact absurd h (by simp)
  | cons a as ih =>
      intro l2 h1 h2 h
      cases l2 with
      | nil => exact absurd h (by simp)
      | cons b bs =>
          simp only [List.map_cons, List.cons.injEq] at h
          have hab : a = b := by
            have hc := congrArg unDigitChar h.1
            rwa [unDigitChar_digitChar a (h1 a (by simp)),
              unDigitChar_digitChar b (h2 b (by simp))] at hc
          rw [hab, ih bs (fun d hd => h1 d (by simp [hd]))
            (fun d hd => h2 d (by simp [hd])) h.2]

/-- The run directory name of line 468 is injective in (index, seed) for
seeds in the randint range. -/
theorem runIdStr_inj : ∀ i1 s1 i2 s2, s1 < 2 ^ 31 → s2 < 2 ^ 31 →
    runIdStr i1 s1 = runIdStr i2 s2 → i1 = i2 ∧ s1 = s2 := by
  intro i1 s1 i2 s2 h1 h2 h
  rw [runIdStr, runIdStr] at h
  have hdata := congrArg String.data h
  exact runIdDigits_inj i1 s1 i2 s2 h1 h2
    (map_digitChar_inj _ _ (runIdDigits_lt i1 s1) (runIdDigits_lt i2 s2) hdata)

/-- What a successful seed pick guarantees: the seed came from the stream,
the name is its rendering, and the derived metadata path is free. -/
theorem pickRunId_spec : ∀ (ex : String → Bool) dir id stream s r,
    pickRunId ex dir id stream = some (s, r) →
    s ∈ stream ∧ r = runIdStr id s ∧
    ex (pjoin (pjoin dir r) metaFilename) = false := by
  intro ex dir id stream
  induction stream with
  | nil =>
      intro s r h
      exact absurd h (by simp [pickRunId])
  | cons a rest ih =>
      intro s r h
      rw [pickRunId] at h
      split at h
      · obtain ⟨h1, h2, h3⟩ := ih s r h
        exact ⟨by simp [h1], h2, h3⟩
      · simp only [Option.some.injEq, Prod.mk.injEq] at h
        obtain ⟨hs, hr⟩ := h
        subst hs
        subst hr
        refine ⟨by simp, rfl, ?_⟩
        simpa using Bool.not_eq_true _ ▸ (by assumption : ¬ _ = true)

/-- A filterMap whose function always returns some is the map of the
defaulted values. -/
theorem filterMap_isSome_map : ∀ (l : List Nat) (f : Nat → Option (Nat × String)),
    (∀ a ∈ l, (f a).isSome = true) →
    l.filterMap f = l.map (fun a => (f a).getD (0, "")) := by
  intro l f
  induction l with
  | nil => intro _; simp
  | cons a as ih =>
      intro h
      obtain ⟨v, hv⟩ := Option.isSome_iff_exists.mp (h a (by simp))
      simp only [List.filterMap_cons, List.map_cons, hv, Option.getD_some]
      rw [ih (fun x hx => h x (by simp [hx]))]

/-- C2: when every per-index retry loop of a multi-run batch of size N
terminates, the batch obtains exactly N run identities; each derived
metadata path avoids every pre-existing metadata file (the loop resamples
until the path is free), and the N directory names are pairwise distinct
(the leading decimal index and fixed-width hex seed make the rendering
injective). -/
theorem multi_ids_fresh_and_distinct :
    ∀ (ex : String → Bool) (dir : String) (streams : Nat → List Nat) (N : Nat),
    (∀ i, i < N → ∀ s ∈ streams i, s < 2 ^ 31) →
    (∀ i, i < N → (pickRunId ex dir i (streams i)).isSome = true) →
    (pickedIds ex dir streams N).length = N ∧
    (∀ p ∈ pickedIds ex dir streams N,
      ex (pjoin (pjoin dir p.2) metaFilename) = false) ∧
    ((pickedIds ex dir streams N).map Prod.snd).Nodup := by
  intro ex dir streams N hb hsome
  have hmap : pickedIds ex dir streams N =
      (List.range N).map (fun i => (pickRunId ex dir i (streams i)).getD (0, "")) := by
    rw [pickedIds]
    exact filterMap_isSome_map _ _ (fun i hi => hsome i (List.mem_range.mp hi))
  have hpick : ∀ i, i < N → ∃ s r, pickRunId ex dir i (streams i) = some (s, r) := by
    intro i hi
    obtain ⟨v, hv⟩ := Option.isSome_iff_exists.mp (hsome i hi)
    exact ⟨v.1, v.2, by rw [hv]⟩
  refine ⟨?_, ?_, ?_⟩
  · rw [hmap, List.length_map, List.length_range]
  · intro p hp
    obtain ⟨s, r⟩ := p
    rw [pickedIds] at hp
    obtain ⟨i, _, hpi⟩ := List.mem_filterMap.mp hp
    exact (pickRunId_spec ex dir i (streams i) s r hpi).2.2
  · rw [hmap, List.map_map]
    refine List.Nodup.map_on ?_ (List.nodup_range N)
    intro i hi j hj heq
    by_contra hne
    obtain ⟨si, ri, hri⟩ := hpick i (List.mem_range.mp hi)
    obtain ⟨sj, rj, hrj⟩ := hpick j (List.mem_range.mp hj)
    obtain ⟨hsi_mem, hri_eq, _⟩ := pickRunId_spec _ _ _ _ _ _ hri
    obtain ⟨hsj_mem, hrj_eq, _⟩ := pickRunId_spec _ _ _ _ _ _ hrj
    simp only [Function.comp, hri, hrj, Option.getD_some] at heq
    have hsi_lt := hb i (List.mem_range.mp hi) si hsi_mem
    have hsj_lt := hb j (List.mem_range.mp hj) sj hsj_mem
    have hinj := runIdStr_inj i si j sj hsi_lt hsj_lt
      (by rw [← hri_eq, ← hrj_eq]; exact heq)
    exact hne hinj.1

/-- Witness for multi_ids_fresh_and_distinct: a two-run batch over an
empty pre-existing set with seed streams that succeed immediately. -/
theorem multi_ids_fresh_and_distinct_witness :
    (pickedIds ex2 "o" streams2 2).length = 2 ∧
    (∀ p ∈ pickedIds ex2 "o" streams2 2,
      ex2 (pjoin (pjoin "o" p.2) metaFilename) = false) ∧
    ((pickedIds ex2 "o" streams2 2).map Prod.snd).Nodup :=
  multi_ids_fresh_and_distinct ex2 "o" streams2 2 (by decide) (by decide)

end RunTvla
